/-
Verification of the bazaar subsystem of the Lunar mobile app.

This file gives a shallow embedding, in Lean 4, of the marketplace /
messaging / rating logic of the repository and proves (or refutes) the
spec's claims about it.  Each definition is translated from a concrete
place in the TypeScript source (or, for the database-side behaviour, from
the SQL schema shipped in src/lib/types.ts); the file-and-symbol of origin
is recorded in every doc comment.

Modelling conventions:
  * UUIDs (user ids, post ids, conversation ids, message ids) are `Nat`.
  * Timestamps are `Nat` (milliseconds; only presence/absence matters here).
  * Money amounts are `Nat` cents: the DB column is a two-decimal numeric
    and every price handled by the verified claims is non-negative, so
    `2500` stands for the JS number `25.00`.
  * JavaScript string helpers (`trim`, `toLowerCase`, `includes`) are
    re-implemented over `List Char` so that every definition evaluates
    inside the kernel (the built-in `String.trim`/`String.toLower` do not
    reduce definitionally).  Only ASCII behaviour is relied upon, which
    covers every string the claims touch.
-/
import Mathlib

namespace Lunar

/-! ## JavaScript string primitives -/

/-- The whitespace characters relevant to `String.prototype.trim` for the
ASCII inputs handled by the claims. -/
def jsWhitespace (c : Char) : Bool :=
  c = ' ' || c = '\t' || c = '\n' || c = '\r'

/-- JS `s.trim()`: drop leading and trailing whitespace. -/
def jsTrim (s : String) : String :=
  String.mk (((s.toList.dropWhile jsWhitespace).reverse.dropWhile jsWhitespace).reverse)

/-- ASCII lower-casing of one character (JS `toLowerCase` restricted to the
ASCII range used by the app's search strings). -/
def jsLowerChar (c : Char) : Char :=
  if 'A' ≤ c ∧ c ≤ 'Z' then Char.ofNat (c.toNat + 32) else c

/-- JS `s.toLowerCase()` (ASCII). -/
def jsToLower (s : String) : String :=
  String.mk (s.toList.map jsLowerChar)

/-- `listLeads xs ys`: `xs` is an initial run of `ys`. -/
def listLeads : List Char → List Char → Bool
  | [], _ => true
  | _ :: _, [] => false
  | x :: xs, y :: ys => x = y && listLeads xs ys

/-- `listWithin xs ys`: `xs` occurs contiguously inside `ys`. -/
def listWithin (xs : List Char) : List Char → Bool
  | [] => xs.isEmpty
  | y :: t => listLeads xs (y :: t) || listWithin xs t

/-- JS `s.includes(sub)`. -/
def strIncludes (s sub : String) : Bool :=
  listWithin sub.toList s.toList

/-- JS `n.toFixed(0)` on a non-negative amount given in cents: round to the
nearest whole unit (halves away from zero) and print it. -/
def toFixed0 (cents : Nat) : String :=
  Nat.repr ((cents + 50) / 100)

/-- Zero-padded two-digit rendering of `n < 100`, for the cents part. -/
def twoDigits (n : Nat) : String :=
  (if n < 10 then "0" else "") ++ Nat.repr n

/-- JS `n.toFixed(2)` on a non-negative amount given in cents. -/
def toFixed2 (cents : Nat) : String :=
  Nat.repr (cents / 100) ++ "." ++ twoDigits (cents % 100)

/-! ## Price formatting

Two distinct `formatPrice` helpers exist in the source: one in the
marketplace grid (src/app/(tabs)/bazaar.tsx, lines 62-71) and one in the
listing-detail screen (src/unnamed/part_006, lines 54-63).  Both consult
the same symbol table `{ CAD: 'C$', USD: '$', EUR: '€' }` with default
`'$'`, but they differ in decimals, in the trailing currency code and in
the null-price result. -/

/-- `symbols[currency] || '$'` from both `formatPrice` helpers. -/
def currencySymbol (currency : String) : String :=
  if currency = "CAD" then "C$"
  else if currency = "USD" then "$"
  else if currency = "EUR" then "€"
  else "$"

/-- `formatPrice` of the marketplace grid (src/app/(tabs)/bazaar.tsx lines
62-71): `if (price === null || !currency) return 'Contact for price';
return symbol + price.toFixed(0)`.  A JS `!currency` is true for both
`null` and the empty string. -/
def formatPriceGrid (price : Option Nat) (currency : Option String) : String :=
  match price with
  | none => "Contact for price"
  | some p =>
    match currency with
    | none => "Contact for price"
    | some c =>
      if c = "" then "Contact for price"
      else currencySymbol c ++ toFixed0 p

/-- `formatPrice` of the listing-detail screen (src/unnamed/part_006 lines
54-63): `if (price === null || !currency) return null;
return symbol + price.toFixed(2) + ' ' + currency`. -/
def formatPriceDetail (price : Option Nat) (currency : Option String) : Option String :=
  match price with
  | none => none
  | some p =>
    match currency with
    | none => none
    | some c =>
      if c = "" then none
      else some (currencySymbol c ++ toFixed2 p ++ " " ++ c)

/-! ## Marketplace posts -/

/-- `status TEXT DEFAULT 'active' CHECK (status IN ('active','sold'))`
from the bazaar schema in src/lib/types.ts. -/
inductive PostStatus
  | active
  | sold
deriving DecidableEq, Repr

/-- A `bazaar_posts` row, restricted to the columns the verified claims
read (`contact`, `photo_url`, `created_at` and the generated search column
are display-only and never examined by a claim). -/
structure BazaarPost where
  id : Nat
  user_id : Nat
  title : String
  description : Option String
  city : Option String
  price : Option Nat
  currency : Option String
  status : PostStatus
  sold_at : Option Nat
deriving DecidableEq, Repr

/-- `description.trim() || null` / `city.trim() || null` from the
new-listing form: an empty trimmed string is stored as SQL NULL. -/
def emptyToNull (s : String) : Option String :=
  if jsTrim s = "" then none else some (jsTrim s)

/-- The new-listing insert (src/app/bazaar/_layout.tsx `handleSubmit`,
lines 130-156).  The insert payload carries no `status` and no `sold_at`,
so the row takes the schema defaults: `status DEFAULT 'active'` and a NULL
`sold_at` (src/lib/types.ts bazaar schema).  `id` models the UUID the
database generates. -/
def createPost (id user_id : Nat) (title description city : String)
    (price : Nat) (currency : String) : BazaarPost :=
  { id := id
    user_id := user_id
    title := jsTrim title
    description := emptyToNull description
    city := emptyToNull city
    price := some price
    currency := some currency
    status := PostStatus.active
    sold_at := none }

/-- The mark-as-sold update (src/unnamed/part_006 `handleMarkAsSold`,
lines 126-150): `update({ status: 'sold', sold_at: new Date().toISOString() })`. -/
def markAsSold (soldTime : Nat) (p : BazaarPost) : BazaarPost :=
  { p with status := PostStatus.sold, sold_at := some soldTime }

/-- The writes the program ever applies to an existing `bazaar_posts` row.
A repository-wide search shows exactly two: the mark-as-sold update and
the delete of src/unnamed/part_006 `handleDelete` (lines 104-124); the
only other write to the table is the insert modelled by `createPost`. -/
inductive PostOp
  | markSold (soldTime : Nat)
  | deleteListing
deriving DecidableEq, Repr

/-- Effect of a post operation on a row; `none` means the row was deleted. -/
def applyPostOp : PostOp → BazaarPost → Option BazaarPost
  | PostOp.markSold t, p => some (markAsSold t p)
  | PostOp.deleteListing, _ => none

/-! ## Marketplace grid filtering -/

/-- The `listingFilter` state of the marketplace tab. -/
inductive ListingFilter
  | all
  | mine
deriving DecidableEq, Repr

/-- The search predicate applied by `filteredPosts` once the query is known
to be non-empty (src/app/(tabs)/bazaar.tsx lines 180-187):
`post.title.toLowerCase().includes(query) || (post.description ?? '')
.toLowerCase().includes(query) || (post.city ?? '').toLowerCase()
.includes(query)`. -/
def matchesQuery (query : String) (post : BazaarPost) : Bool :=
  strIncludes (jsToLower post.title) query ||
  strIncludes (jsToLower (post.description.getD "")) query ||
  strIncludes (jsToLower (post.city.getD "")) query

/-- Whether a post survives the query stage of `filteredPosts` (the stage
is skipped entirely for an empty normalized query). -/
def passesQuery (searchQuery : String) (post : BazaarPost) : Bool :=
  let query := jsToLower (jsTrim searchQuery)
  query = "" || matchesQuery query post

/-- `filteredPosts` of the marketplace tab (src/app/(tabs)/bazaar.tsx
lines 169-189): scope to own posts when the filter is `'mine'` and a user
is signed in, otherwise drop sold posts; then apply the search query. -/
def filteredPosts (listingFilter : ListingFilter) (user : Option Nat)
    (posts : List BazaarPost) (searchQuery : String) : List BazaarPost :=
  let query := jsToLower (jsTrim searchQuery)
  let scopedPosts :=
    match listingFilter, user with
    | ListingFilter.mine, some uid => posts.filter (fun post => post.user_id = uid)
    | _, _ => posts.filter (fun post => !(post.status = PostStatus.sold : Bool))
  if query = "" then scopedPosts
  else scopedPosts.filter (matchesQuery query)

/-! ## Messages and read state -/

/-- A `bazaar_messages` row (schema in src/lib/types.ts). -/
structure BazaarMessage where
  id : Nat
  conversation_id : Nat
  sender_id : Nat
  content : String
  is_read : Bool
  created_at : Nat
deriving DecidableEq, Repr

/-- The bulk mark-read update of the chat screen
(src/app/bazaar/messages/[id].tsx `markMessagesAsRead`, lines 132-140):
`update({ is_read: true }).eq('conversation_id', conversationId)
.neq('sender_id', user.id).eq('is_read', false)`, applied here to the
whole message table. -/
def markMessagesAsRead (conversationId userId : Nat)
    (msgs : List BazaarMessage) : List BazaarMessage :=
  msgs.map fun m =>
    if m.conversation_id = conversationId ∧ m.sender_id ≠ userId ∧ m.is_read = false
    then { m with is_read := true }
    else m

/-- The per-conversation unread count of the inbox screen
(src/app/bazaar/messages/index.tsx `loadConversations`, lines 125-130):
count of rows with `conversation_id = conv.id`, `is_read = false` and
`sender_id ≠ user.id`. -/
def unreadCount (conversationId userId : Nat) (msgs : List BazaarMessage) : Nat :=
  (msgs.filter fun m =>
    decide (m.conversation_id = conversationId ∧ m.is_read = false ∧
      m.sender_id ≠ userId)).length

/-- The state update run by the realtime subscription callback of the chat
screen (src/app/bazaar/messages/[id].tsx lines 70-72):
`setMessages((prev) => [...prev, newMsg])` — an unconditional append. -/
def chatMergeEvent (prev : List BazaarMessage) (newMsg : BazaarMessage) :
    List BazaarMessage :=
  prev ++ [newMsg]

/-- How many entries of the rendered list carry a given message id. -/
def countById (msgs : List BazaarMessage) (i : Nat) : Nat :=
  (msgs.filter fun m => decide (m.id = i)).length

/-! ## The chat-screen mount and its event loop

The mount effect (src/app/bazaar/messages/[id].tsx lines 53-85) runs
synchronously: it calls `loadConversation()`, `loadMessages()` and
`markMessagesAsRead()` **without awaiting them**, then builds the channel
and calls `.subscribe()`.  On the single-threaded JS event loop, the
continuations of those async calls (in particular `setMessages(data)` once
the history response arrives) can only run after the synchronous effect
body — including the `.subscribe()` call — has finished.  An execution of
the screen is therefore the fixed synchronous prefix followed by an
arbitrary interleaving of completions and subscription events. -/

/-- Primitive steps observable while the chat screen is mounted. -/
inductive MountAction
  | callLoadConversation
  | callLoadMessages
  | callMarkMessagesAsRead
  | openSubscription
  | conversationLoaded
  | historyLoaded (history : List BazaarMessage)
  | markReadCompleted
  | subscriptionEvent (newMsg : BazaarMessage)
deriving DecidableEq, Repr

/-- The synchronous body of the mount effect, in source order
(src/app/bazaar/messages/[id].tsx lines 54-81). -/
def chatMountSyncBody : List MountAction :=
  [MountAction.callLoadConversation, MountAction.callLoadMessages,
   MountAction.callMarkMessagesAsRead, MountAction.openSubscription]

/-- A full execution of the mounted screen: the synchronous effect body,
then an arbitrary tail of asynchronous completions and realtime events. -/
def chatMountTrace (rest : List MountAction) : List MountAction :=
  chatMountSyncBody ++ rest

/-- Position of the first occurrence of a step in a trace. -/
def firstIndexOf (a : MountAction) (tr : List MountAction) : Nat :=
  tr.findIdx fun x => x == a

/-- The message-relevant state of a mounted chat screen. -/
structure ChatScreenState where
  messages : List BazaarMessage
  historyPending : Bool
  subOpen : Bool
deriving DecidableEq, Repr

/-- Screen state at mount time. -/
def chatInit : ChatScreenState :=
  { messages := [], historyPending := false, subOpen := false }

/-- Effect of one step on the screen state: `loadMessages()` starts the
history fetch; its completion replaces the whole `messages` state
(`setMessages(data)`, lines 121-127); a subscription event received while
the channel is open appends via `chatMergeEvent`. -/
def stepMount (st : ChatScreenState) : MountAction → ChatScreenState
  | MountAction.callLoadMessages => { st with historyPending := true }
  | MountAction.openSubscription => { st with subOpen := true }
  | MountAction.historyLoaded h => { st with messages := h, historyPending := false }
  | MountAction.subscriptionEvent m =>
    if st.subOpen then { st with messages := chatMergeEvent st.messages m } else st
  | _ => st

/-- Run a trace from the initial screen state. -/
def runMount (tr : List MountAction) : ChatScreenState :=
  tr.foldl stepMount chatInit

/-! ## Sending a message -/

/-- State updates and requests emitted by the chat screen while sending;
`setMessagesAction` is the constructor used by the history load and the
subscription callback, never by `sendMessage`. -/
inductive ChatAction
  | setSending (b : Bool)
  | setInput (s : String)
  | insertMessage (conversationId senderId : Nat) (content : String)
  | setMessagesAction (msgs : List BazaarMessage)
deriving DecidableEq, Repr

/-- The two pieces of component state `sendMessage` manipulates. -/
structure ChatInputState where
  newMessage : String
  sending : Bool
deriving DecidableEq, Repr

/-- `sendMessage` (src/app/bazaar/messages/[id].tsx lines 149-167) as the
ordered list of state updates and requests it performs.  Guard:
`if (!user || !newMessage.trim() || sending) return;`.  Then it sets
`sending`, captures the trimmed content, clears the input, issues the
insert, clears `sending`, and — only if the insert returned an error —
restores the captured content into the input. -/
def sendMessageTrace (user : Option Nat) (conversationId : Nat)
    (st : ChatInputState) (insertFails : Bool) : List ChatAction :=
  match user with
  | none => []
  | some uid =>
    if jsTrim st.newMessage = "" ∨ st.sending = true then []
    else
      let messageContent := jsTrim st.newMessage
      [ChatAction.setSending true, ChatAction.setInput "",
       ChatAction.insertMessage conversationId uid messageContent,
       ChatAction.setSending false] ++
      (if insertFails then [ChatAction.setInput messageContent] else [])

/-- Effect of one chat action on the input state. -/
def applyChatAction (st : ChatInputState) : ChatAction → ChatInputState
  | ChatAction.setSending b => { st with sending := b }
  | ChatAction.setInput s => { st with newMessage := s }
  | _ => st

/-- Run a list of chat actions over the input state. -/
def runChatActions (st : ChatInputState) (as : List ChatAction) : ChatInputState :=
  as.foldl applyChatAction st

/-- Effect of a chat action on the rendered message list: only
`setMessagesAction` touches it. -/
def applyToMessages (msgs : List BazaarMessage) : ChatAction → List BazaarMessage
  | ChatAction.setMessagesAction l => l
  | _ => msgs

/-! ## Conversation-on-demand resolver -/

/-- A `bazaar_conversations` row; the schema in src/lib/types.ts declares
`UNIQUE(post_id, buyer_id)`. -/
structure BazaarConversation where
  id : Nat
  post_id : Nat
  buyer_id : Nat
  seller_id : Nat
deriving DecidableEq, Repr

/-- The conversations table together with the id the database would hand
to the next inserted row. -/
structure ConversationsTable where
  rows : List BazaarConversation
  nextId : Nat
deriving DecidableEq, Repr

/-- The point-lookup predicate `.eq('post_id', post.id)
.eq('buyer_id', user.id)`. -/
def convMatches (postId buyerId : Nat) (c : BazaarConversation) : Bool :=
  c.post_id == postId && c.buyer_id == buyerId

/-- The point lookup of `handleMessageSeller` (src/unnamed/part_006 lines
156-161).  `.single()` yields non-null data exactly when one row matches;
the code ignores the error object, so zero or several matches both read
as "no existing conversation". -/
def lookupConversation (tbl : ConversationsTable) (postId buyerId : Nat) :
    Option BazaarConversation :=
  match tbl.rows.filter (convMatches postId buyerId) with
  | [c] => some c
  | _ => none

/-- The conversation insert (src/unnamed/part_006 lines 170-178) as
executed by the database: it honours `UNIQUE(post_id, buyer_id)` and
fails when a row for the pair already exists. -/
def insertConversation (tbl : ConversationsTable) (postId buyerId sellerId : Nat) :
    Option (BazaarConversation × ConversationsTable) :=
  if tbl.rows.any (convMatches postId buyerId) then none
  else
    let c : BazaarConversation :=
      { id := tbl.nextId, post_id := postId, buyer_id := buyerId, seller_id := sellerId }
    some (c, { rows := c :: tbl.rows, nextId := tbl.nextId + 1 })

/-- What the resolver leaves the user with. -/
inductive ResolverOutcome
  | navigate (conversationId : Nat)
  | errorAlert
deriving DecidableEq, Repr

/-- Result of one run of the resolver: the outcome, the number of point
lookups the run issued against `bazaar_conversations`, and the table
afterwards. -/
structure ResolverRun where
  outcome : ResolverOutcome
  lookupsIssued : Nat
  finalTable : ConversationsTable
deriving DecidableEq, Repr

/-- `handleMessageSeller` (src/unnamed/part_006 lines 152-187).  The run
is parameterized by the table the lookup observes (`tblAtLookup`) and the
table the later insert executes against (`tblAtInsert`); a concurrent
writer may have changed the table between the two.  The source issues
exactly one lookup: if it hits, navigate; otherwise insert, and on insert
success navigate to the new row.  On insert failure — the uniqueness
conflict included — the source shows the alert `'Unable to start
conversation. Please try again.'` and returns, issuing no further
request. -/
def handleMessageSeller (tblAtLookup tblAtInsert : ConversationsTable)
    (postId buyerId sellerId : Nat) : ResolverRun :=
  match lookupConversation tblAtLookup postId buyerId with
  | some c =>
    { outcome := ResolverOutcome.navigate c.id, lookupsIssued := 1,
      finalTable := tblAtInsert }
  | none =>
    match insertConversation tblAtInsert postId buyerId sellerId with
    | some (c, tbl') =>
      { outcome := ResolverOutcome.navigate c.id, lookupsIssued := 1,
        finalTable := tbl' }
    | none =>
      { outcome := ResolverOutcome.errorAlert, lookupsIssued := 1,
        finalTable := tblAtInsert }

/-- A run with no concurrent writer: lookup and insert observe the same
table.  This is the setting of sequential back-to-back runs. -/
def handleMessageSellerSeq (tbl : ConversationsTable)
    (postId buyerId sellerId : Nat) : ResolverRun :=
  handleMessageSeller tbl tbl postId buyerId sellerId

/-! ## Seller ratings -/

/-- A `seller_ratings` row; the schema in src/lib/types.ts declares
`UNIQUE(buyer_id, post_id)` (`post_id` is nullable, but every rating the
verified claim touches carries a concrete post). -/
structure SellerRating where
  seller_id : Nat
  buyer_id : Nat
  post_id : Option Nat
  rating : Nat
  review_text : Option String
deriving DecidableEq, Repr

/-- The conflict key of the upsert: `onConflict: 'buyer_id,post_id'`. -/
def ratingKeyMatches (buyerId : Nat) (postId : Option Nat) (r : SellerRating) : Bool :=
  r.buyer_id == buyerId && r.post_id == postId

/-- The rating submit (src/unnamed/part_007 `handleSubmit`, lines 86-118):
`supabase.from('seller_ratings').upsert(ratingData, { onConflict:
'buyer_id,post_id' })`.  Database semantics: if a row with the conflict
key exists it is overwritten with the supplied columns, otherwise the row
is appended. -/
def upsertSellerRating (tbl : List SellerRating) (newRow : SellerRating) :
    List SellerRating :=
  if tbl.any (ratingKeyMatches newRow.buyer_id newRow.post_id) then
    tbl.map fun r =>
      if ratingKeyMatches newRow.buyer_id newRow.post_id r then newRow else r
  else
    tbl ++ [newRow]

/-- `COUNT(*) FROM seller_ratings WHERE seller_id = target` from the
`update_seller_rating` trigger (src/lib/types.ts lines 293-328). -/
def sellerRatingCount (tbl : List SellerRating) (sellerId : Nat) : Nat :=
  (tbl.filter fun r => r.seller_id == sellerId).length

/-- `ROUND(AVG(rating)::numeric, 1)` from the same trigger, in tenths of a
star (`COALESCE .. 0` for a seller with no ratings). -/
def sellerRatingTenths (tbl : List SellerRating) (sellerId : Nat) : Nat :=
  let rs := (tbl.filter fun r => r.seller_id == sellerId).map SellerRating.rating
  if rs.length = 0 then 0
  else (20 * rs.sum + rs.length) / (2 * rs.length)

/-- The denormalized aggregate columns on `profiles` maintained by the
trigger. -/
structure ProfileAgg where
  seller_rating_tenths : Nat
  seller_rating_count : Nat
deriving DecidableEq, Repr

/-- The `update_seller_rating` trigger body: recompute both aggregate
columns of the seller's profile from the current `seller_ratings` rows. -/
def update_seller_rating (tbl : List SellerRating) (sellerId : Nat) : ProfileAgg :=
  { seller_rating_tenths := sellerRatingTenths tbl sellerId
    seller_rating_count := sellerRatingCount tbl sellerId }

/-! ## Shared helper lemmas -/

/-- Splitting a filter count along a second boolean predicate. -/
theorem length_filter_split (A B : SellerRating → Bool) (l : List SellerRating) :
    (l.filter A).length =
      (l.filter fun x => A x && B x).length +
      (l.filter fun x => A x && !(B x)).length := by
  induction l with
  | nil => rfl
  | cons a t ih =>
    by_cases hA : A a = true <;> by_cases hB : B a = true <;>
      simp [List.filter_cons, hA, hB, ih] <;> omega

/-! # The claims -/

/-- C3, counterexample: the claim quantifies over "the price-formatting
function", and its sources name both `formatPrice` helpers; the
listing-detail screen's helper maps price 25.00 / currency CAD to
`"C$25.00 CAD"`, not `"C$25"`, and maps a null price to no string at all
rather than to `"Contact for price"`. -/
theorem formatPriceDetail_differs :
    formatPriceDetail (some 2500) (some "CAD") ≠ some "C$25" ∧
    formatPriceDetail (some 2500) (some "CAD") = some "C$25.00 CAD" ∧
    formatPriceDetail none (some "CAD") = none := by
  refine ⟨?_, by decide, rfl⟩
  decide

/-- C3, amended: the marketplace grid's `formatPrice` maps price 25.00
with currency CAD to `"C$25"`, with USD to `"$25"`, and a null price to
the literal `"Contact for price"`; the listing-detail screen's
`formatPrice` instead renders two decimals plus the currency code
(`"C$25.00 CAD"`) and yields no string for a null price. -/
theorem formatPrice_values :
    formatPriceGrid (some 2500) (some "CAD") = "C$25" ∧
    formatPriceGrid (some 2500) (some "USD") = "$25" ∧
    (∀ c, formatPriceGrid none c = "Contact for price") ∧
    formatPriceDetail (some 2500) (some "CAD") = some "C$25.00 CAD" ∧
    formatPriceDetail (some 2500) (some "USD") = some "$25.00 USD" ∧
    (∀ c, formatPriceDetail none c = none) :=
  ⟨by decide, by decide, fun _ => rfl, by decide, by decide, fun _ => rfl⟩

/-- C8: a post created by the new-listing form (which sends no status
field) has status `active` and a null `sold_at`; mark-as-sold transitions
the status to `sold` and sets a non-null `sold_at`; and no write the
program applies to an existing row ever takes a `sold` post back to
`active`. -/
theorem post_status_lifecycle (id uid : Nat) (title description city : String)
    (price : Nat) (currency : String) (t : Nat) :
    (createPost id uid title description city price currency).status = PostStatus.active ∧
    (createPost id uid title description city price currency).sold_at = none ∧
    (∀ p : BazaarPost,
      (markAsSold t p).status = PostStatus.sold ∧ (markAsSold t p).sold_at = some t) ∧
    (∀ (op : PostOp) (p q : BazaarPost), p.status = PostStatus.sold →
      applyPostOp op p = some q → q.status = PostStatus.sold) := by
  refine ⟨rfl, rfl, fun p => ⟨rfl, rfl⟩, ?_⟩
  intro op p q _ hq
  cases op with
  | markSold t' =>
    cases hq
    rfl
  | deleteListing => cases hq

/-- Witness for C8: a concrete listing is created active, marked sold, and
a further mark-as-sold write leaves it sold. -/
theorem post_status_lifecycle_witness :
    (markAsSold 9 (markAsSold 5 (createPost 1 2 "Lamp" "" "" 2500 "CAD"))).status
      = PostStatus.sold :=
  (post_status_lifecycle 1 2 "Lamp" "" "" 2500 "CAD" 5).2.2.2
    (PostOp.markSold 9) (markAsSold 5 (createPost 1 2 "Lamp" "" "" 2500 "CAD"))
    (markAsSold 9 (markAsSold 5 (createPost 1 2 "Lamp" "" "" 2500 "CAD")))
    (by decide) (by decide)

/-- C10: with the `'all'` filter the client-side `filteredPosts` list
contains exactly the non-sold posts passing the search query (in
particular never a sold post), for any fetched posts, any query and any
session; with the `'mine'` filter and a signed-in user it contains exactly
that user's own posts passing the query, sold ones included. -/
theorem filteredPosts_scope (user : Option Nat) (u : Nat)
    (posts : List BazaarPost) (q : String) (post : BazaarPost) :
    (post ∈ filteredPosts ListingFilter.all user posts q ↔
      post ∈ posts ∧ post.status ≠ PostStatus.sold ∧ passesQuery q post = true) ∧
    (post ∈ filteredPosts ListingFilter.mine (some u) posts q ↔
      post ∈ posts ∧ post.user_id = u ∧ passesQuery q post = true) := by
  by_cases hq : jsToLower (jsTrim q) = ""
  · simp [filteredPosts, passesQuery, hq, List.mem_filter, and_assoc]
  · simp [filteredPosts, passesQuery, hq, List.mem_filter, and_assoc]
    exact ⟨fun _ => and_comm, fun _ => and_comm⟩

/-- C6: after the bulk mark-read update, the unread count the inbox
computes for that conversation is zero whatever it was before, and
running the bulk update again changes nothing (idempotence). -/
theorem markMessagesAsRead_spec (conversationId userId : Nat)
    (msgs : List BazaarMessage) :
    unreadCount conversationId userId (markMessagesAsRead conversationId userId msgs) = 0 ∧
    markMessagesAsRead conversationId userId (markMessagesAsRead conversationId userId msgs)
      = markMessagesAsRead conversationId userId msgs := by
  constructor
  · rw [unreadCount, markMessagesAsRead, List.filter_map, List.length_eq_zero]
    rw [show ∀ l : List BazaarMessage, l.map _ = [] ↔ l = [] from fun l => List.map_eq_nil_iff,
      List.filter_eq_nil_iff]
    intro m _
    by_cases hc : m.conversation_id = conversationId ∧ m.sender_id ≠ userId ∧ m.is_read = false
    · simp only [Function.comp, if_pos hc]
      simp
    · simp only [Function.comp, if_neg hc]
      simp only [decide_eq_true_eq]
      tauto
  · rw [markMessagesAsRead, markMessagesAsRead, List.map_map]
    apply List.map_congr_left
    intro m _
    by_cases hc : m.conversation_id = conversationId ∧ m.sender_id ≠ userId ∧ m.is_read = false
    · simp only [Function.comp, if_pos hc]
      rw [if_neg]
      simp
    · simp only [Function.comp, if_neg hc, if_neg hc]

/-- C5: running the message-seller resolver twice in sequence (the second
run starting from the table the first run left behind, with no concurrent
writer) navigates to the same conversation id both times; the second run's
point lookup finds the row the first run returned or created, the table is
unchanged by the second run, and exactly one conversation for the
(post, buyer) pair exists after the first run.  The hypothesis is the
`UNIQUE(post_id, buyer_id)` invariant the database maintains. -/
theorem resolver_sequential_idempotent (tbl : ConversationsTable)
    (postId buyerId sellerId : Nat)
    (huniq : (tbl.rows.filter (convMatches postId buyerId)).length ≤ 1) :
    ∃ cid,
      (handleMessageSellerSeq tbl postId buyerId sellerId).outcome
        = ResolverOutcome.navigate cid ∧
      (handleMessageSellerSeq
          (handleMessageSellerSeq tbl postId buyerId sellerId).finalTable
          postId buyerId sellerId).outcome = ResolverOutcome.navigate cid ∧
      (handleMessageSellerSeq
          (handleMessageSellerSeq tbl postId buyerId sellerId).finalTable
          postId buyerId sellerId).finalTable
        = (handleMessageSellerSeq tbl postId buyerId sellerId).finalTable ∧
      ((handleMessageSellerSeq tbl postId buyerId sellerId).finalTable.rows.filter
          (convMatches postId buyerId)).length = 1 := by
  rcases hfl : tbl.rows.filter (convMatches postId buyerId) with _ | ⟨c, rest⟩
  · -- lookup misses; the insert succeeds and the second run finds the new row
    have hany : tbl.rows.any (convMatches postId buyerId) = false := by
      rw [Bool.eq_false_iff]
      intro hx
      rcases List.any_eq_true.mp hx with ⟨x, hm, hp⟩
      have : x ∈ tbl.rows.filter (convMatches postId buyerId) :=
        List.mem_filter.mpr ⟨hm, hp⟩
      rw [hfl] at this
      cases this
    have hmatch : convMatches postId buyerId
        { id := tbl.nextId, post_id := postId, buyer_id := buyerId,
          seller_id := sellerId } = true := by
      simp [convMatches]
    refine ⟨tbl.nextId, ?_⟩
    simp only [handleMessageSellerSeq, handleMessageSeller, lookupConversation,
      insertConversation, hfl, hany, Bool.false_eq_true, if_false,
      List.filter_cons, hmatch, if_true]
    simp [hfl]
  · rcases rest with _ | ⟨c', rest'⟩
    · -- lookup hits the unique existing row; nothing is written
      refine ⟨c.id, ?_⟩
      simp [handleMessageSellerSeq, handleMessageSeller, lookupConversation, hfl]
    · -- two rows for the pair: excluded by the uniqueness invariant
      rw [hfl] at huniq
      simp at huniq

/-- Witness for C5: both sequential runs on an initially empty table
navigate to the single conversation the first run created. -/
theorem resolver_sequential_idempotent_witness :
    ∃ cid,
      (handleMessageSellerSeq ⟨[], 0⟩ 1 2 3).outcome = ResolverOutcome.navigate cid ∧
      (handleMessageSellerSeq (handleMessageSellerSeq ⟨[], 0⟩ 1 2 3).finalTable
          1 2 3).outcome = ResolverOutcome.navigate cid ∧
      (handleMessageSellerSeq (handleMessageSellerSeq ⟨[], 0⟩ 1 2 3).finalTable
          1 2 3).finalTable = (handleMessageSellerSeq ⟨[], 0⟩ 1 2 3).finalTable ∧
      ((handleMessageSellerSeq ⟨[], 0⟩ 1 2 3).finalTable.rows.filter
          (convMatches 1 2)).length = 1 :=
  resolver_sequential_idempotent ⟨[], 0⟩ 1 2 3 (by decide)

/-- C9: `sendMessage` does nothing when there is no user, the input is
empty/whitespace, or a send is in flight; otherwise it clears the input
before issuing the insert (after the first two actions the input is
already empty and `sending` is set), on insert failure it restores the
exact trimmed content into the input, on success the input stays cleared,
and in either case the rendered message list is untouched by
`sendMessage` itself. -/
theorem sendMessage_spec (user : Option Nat) (conversationId : Nat)
    (st : ChatInputState) (insertFails : Bool) :
    ((user = none ∨ jsTrim st.newMessage = "" ∨ st.sending = true) →
      sendMessageTrace user conversationId st insertFails = []) ∧
    (∀ uid, user = some uid → jsTrim st.newMessage ≠ "" → st.sending = false →
      sendMessageTrace user conversationId st insertFails =
        [ChatAction.setSending true, ChatAction.setInput "",
         ChatAction.insertMessage conversationId uid (jsTrim st.newMessage),
         ChatAction.setSending false] ++
        (if insertFails then [ChatAction.setInput (jsTrim st.newMessage)] else []) ∧
      runChatActions st ((sendMessageTrace user conversationId st insertFails).take 2) =
        { newMessage := "", sending := true } ∧
      runChatActions st (sendMessageTrace user conversationId st insertFails) =
        { newMessage := if insertFails then jsTrim st.newMessage else "",
          sending := false } ∧
      (∀ msgs, (sendMessageTrace user conversationId st insertFails).foldl
          applyToMessages msgs = msgs)) := by
  constructor
  · intro hguard
    rcases hguard with hu | he | hs
    · subst hu
      rfl
    · cases user with
      | none => rfl
      | some uid => simp [sendMessageTrace, he]
    · cases user with
      | none => rfl
      | some uid => simp [sendMessageTrace, hs]
  · intro uid hu hne hs
    subst hu
    have hcond : ¬(jsTrim st.newMessage = "" ∨ st.sending = true) := by
      simp [hne, hs]
    cases insertFails <;>
      simp [sendMessageTrace, hcond, runChatActions, applyChatAction, applyToMessages]

/-- Witness for C9: a whitespace-only draft sends nothing, and a failing
send of `" hi "` emits exactly the clear-then-insert-then-restore trace. -/
theorem sendMessage_spec_witness :
    sendMessageTrace (some 5) 1 ⟨"  ", false⟩ false = [] ∧
    sendMessageTrace (some 5) 1 ⟨" hi ", false⟩ true =
      [ChatAction.setSending true, ChatAction.setInput "",
       ChatAction.insertMessage 1 5 "hi", ChatAction.setSending false,
       ChatAction.setInput "hi"] ∧
    runChatActions ⟨" hi ", false⟩ (sendMessageTrace (some 5) 1 ⟨" hi ", false⟩ true) =
      { newMessage := "hi", sending := false } :=
  ⟨(sendMessage_spec (some 5) 1 ⟨"  ", false⟩ false).1 (Or.inr (Or.inl (by decide))),
   ((sendMessage_spec (some 5) 1 ⟨" hi ", false⟩ true).2 5 rfl (by decide) rfl).1,
   ((sendMessage_spec (some 5) 1 ⟨" hi ", false⟩ true).2 5 rfl (by decide) rfl).2.2.1⟩

/-- C7: submitting rating 5 with no review text for a (buyer, post) pair
that already has a stored rating (3) updates the existing row in place:
the table keeps its length, the pair afterwards owns exactly the single
new row, exactly one row of the seller's aggregate input carries the
pair, and the trigger-recomputed `seller_rating_count` counts that
contribution exactly once on top of the seller's other ratings.  The
hypotheses are the `UNIQUE(buyer_id, post_id)` invariant and the existing
rating. -/
theorem rating_upsert_updates_in_place (tbl : List SellerRating) (s b p : Nat)
    (huniq : (tbl.filter (ratingKeyMatches b (some p))).length ≤ 1)
    (hprev : ∃ r ∈ tbl, ratingKeyMatches b (some p) r = true ∧ r.rating = 3) :
    (upsertSellerRating tbl ⟨s, b, some p, 5, none⟩).length = tbl.length ∧
    (upsertSellerRating tbl ⟨s, b, some p, 5, none⟩).filter
      (ratingKeyMatches b (some p)) = [⟨s, b, some p, 5, none⟩] ∧
    ((upsertSellerRating tbl ⟨s, b, some p, 5, none⟩).filter
      fun r => r.seller_id == s && ratingKeyMatches b (some p) r).length = 1 ∧
    (update_seller_rating (upsertSellerRating tbl ⟨s, b, some p, 5, none⟩) s).seller_rating_count
      = ((upsertSellerRating tbl ⟨s, b, some p, 5, none⟩).filter
          fun r => r.seller_id == s && !(ratingKeyMatches b (some p) r)).length + 1 := by
  rcases hprev with ⟨r0, hmem, hkey, _⟩
  have hany : tbl.any (ratingKeyMatches b (some p)) = true :=
    List.any_eq_true.mpr ⟨r0, hmem, hkey⟩
  have hnewkey : ratingKeyMatches b (some p) ⟨s, b, some p, 5, none⟩ = true := by
    simp [ratingKeyMatches]
  have hups : upsertSellerRating tbl ⟨s, b, some p, 5, none⟩ =
      tbl.map fun r =>
        if ratingKeyMatches b (some p) r then ⟨s, b, some p, 5, none⟩ else r := by
    rw [upsertSellerRating, if_pos hany]
  have hfl : tbl.filter (ratingKeyMatches b (some p)) = [r0] := by
    have hmemf : r0 ∈ tbl.filter (ratingKeyMatches b (some p)) :=
      List.mem_filter.mpr ⟨hmem, hkey⟩
    rcases hl : tbl.filter (ratingKeyMatches b (some p)) with _ | ⟨x, rest⟩
    · rw [hl] at hmemf
      cases hmemf
    · rcases rest with _ | ⟨y, rest2⟩
      · rw [hl] at hmemf
        rcases List.mem_singleton.mp hmemf with rfl
        rfl
      · rw [hl] at huniq
        simp at huniq
  have hkeyfilter : ∀ q : SellerRating → Bool,
      q ⟨s, b, some p, 5, none⟩ = true →
      (∀ x : SellerRating, ratingKeyMatches b (some p) x = false → q x = false) →
      (upsertSellerRating tbl ⟨s, b, some p, 5, none⟩).filter q =
        [⟨s, b, some p, 5, none⟩] := by
    intro q hqnew hqother
    rw [hups, List.filter_map]
    have hcomp : List.filter (q ∘ fun r =>
        if ratingKeyMatches b (some p) r then ⟨s, b, some p, 5, none⟩ else r) tbl =
        List.filter (ratingKeyMatches b (some p)) tbl := by
      apply List.filter_congr
      intro x _
      by_cases hx : ratingKeyMatches b (some p) x = true
      · show q (if ratingKeyMatches b (some p) x then _ else x) = _
        rw [if_pos hx, hqnew, hx]
      · have hx2 := Bool.eq_false_iff.mpr hx
        show q (if ratingKeyMatches b (some p) x then _ else x) = _
        rw [if_neg hx, hqother x hx2, hx2]
    rw [hcomp, hfl, List.map_cons, if_pos hkey, List.map_nil]
  have hfilter2 : (upsertSellerRating tbl ⟨s, b, some p, 5, none⟩).filter
      (ratingKeyMatches b (some p)) = [⟨s, b, some p, 5, none⟩] :=
    hkeyfilter (ratingKeyMatches b (some p)) hnewkey (fun _ hx => hx)
  have hfilter3 : (upsertSellerRating tbl ⟨s, b, some p, 5, none⟩).filter
      (fun r => r.seller_id == s && ratingKeyMatches b (some p) r) =
      [⟨s, b, some p, 5, none⟩] := by
    apply hkeyfilter
    · simp [ratingKeyMatches]
    · intro x hx
      rw [hx, Bool.and_false]
  refine ⟨by rw [hups, List.length_map], hfilter2, by rw [hfilter3]; rfl, ?_⟩
  have hsplit := length_filter_split (fun r => r.seller_id == s)
    (ratingKeyMatches b (some p)) (upsertSellerRating tbl ⟨s, b, some p, 5, none⟩)
  have hone : ((upsertSellerRating tbl ⟨s, b, some p, 5, none⟩).filter
      fun r => r.seller_id == s && ratingKeyMatches b (some p) r).length = 1 := by
    rw [hfilter3]
    rfl
  rw [update_seller_rating]
  show sellerRatingCount _ s = _
  rw [sellerRatingCount, hsplit, hone]
  omega

/-- Witness for C7: upserting rating 5 over an existing rating 3 on a
one-row table. -/
theorem rating_upsert_updates_in_place_witness :
    (upsertSellerRating [⟨4, 2, some 3, 3, none⟩] ⟨4, 2, some 3, 5, none⟩).length = 1 ∧
    (upsertSellerRating [⟨4, 2, some 3, 3, none⟩] ⟨4, 2, some 3, 5, none⟩).filter
      (ratingKeyMatches 2 (some 3)) = [⟨4, 2, some 3, 5, none⟩] ∧
    ((upsertSellerRating [⟨4, 2, some 3, 3, none⟩] ⟨4, 2, some 3, 5, none⟩).filter
      fun r => r.seller_id == 4 && ratingKeyMatches 2 (some 3) r).length = 1 ∧
    (update_seller_rating (upsertSellerRating [⟨4, 2, some 3, 3, none⟩]
        ⟨4, 2, some 3, 5, none⟩) 4).seller_rating_count =
      ((upsertSellerRating [⟨4, 2, some 3, 3, none⟩] ⟨4, 2, some 3, 5, none⟩).filter
        fun r => r.seller_id == 4 && !(ratingKeyMatches 2 (some 3) r)).length + 1 :=
  rating_upsert_updates_in_place [⟨4, 2, some 3, 3, none⟩] 4 2 3 (by decide)
    ⟨⟨4, 2, some 3, 3, none⟩, by decide, by decide, rfl⟩

/-- C1, evaluation at the failing input: the point lookup observes an
empty table (miss) and a concurrent writer has inserted the conversation
(id 3) for (post 1, buyer 2) before the resolver's create executes, so the
create fails on `UNIQUE(post_id, buyer_id)`.  The resolver then surfaces
the error alert having issued exactly one lookup in total: it neither
re-issues the lookup nor navigates to the conversation the re-lookup
would have found. -/
theorem resolver_conflict_alerts_without_relookup :
    handleMessageSeller ⟨[], 7⟩ ⟨[⟨3, 1, 2, 9⟩], 7⟩ 1 2 9 =
      { outcome := ResolverOutcome.errorAlert, lookupsIssued := 1,
        finalTable := ⟨[⟨3, 1, 2, 9⟩], 7⟩ } := by
  decide

/-- C2, evaluation at the failing input: a message (id 1) already present
in the locally-fetched history is redelivered by the realtime insert
event; the subscription callback appends it unconditionally, so the
rendered list holds two copies of the identifier, not one. -/
theorem subscription_event_duplicates_history :
    (runMount (chatMountTrace
        [MountAction.historyLoaded [⟨1, 1, 2, "hi", false, 0⟩],
         MountAction.subscriptionEvent ⟨1, 1, 2, "hi", false, 0⟩])).messages =
      [⟨1, 1, 2, "hi", false, 0⟩, ⟨1, 1, 2, "hi", false, 0⟩] ∧
    countById (runMount (chatMountTrace
        [MountAction.historyLoaded [⟨1, 1, 2, "hi", false, 0⟩],
         MountAction.subscriptionEvent ⟨1, 1, 2, "hi", false, 0⟩])).messages 1 = 2 ∧
    chatMergeEvent [⟨1, 1, 2, "hi", false, 0⟩] ⟨1, 1, 2, "hi", false, 0⟩ =
      [⟨1, 1, 2, "hi", false, 0⟩, ⟨1, 1, 2, "hi", false, 0⟩] := by
  decide

/-- C4, counterexample: in the execution of the mount effect in which the
three async responses arrive in request order, the subscription is opened
(trace position 3, inside the synchronous effect body) strictly before
the history fetch completes (position 4), contradicting the claim that
the fetch completes first on every mount. -/
theorem subscription_opens_before_history :
    firstIndexOf MountAction.openSubscription
        (chatMountTrace [MountAction.conversationLoaded,
          MountAction.historyLoaded [], MountAction.markReadCompleted]) <
      firstIndexOf (MountAction.historyLoaded [])
        (chatMountTrace [MountAction.conversationLoaded,
          MountAction.historyLoaded [], MountAction.markReadCompleted]) := by
  decide

/-- C4, amended: on every mount of the chat screen the realtime
subscription is opened synchronously, before the history fetch completes
— whatever order the asynchronous completions arrive in, the
`openSubscription` step precedes the `historyLoaded` step; a subscription
event arriving before the history response IS merged into the list while
the load is pending, and the history response that then arrives replaces
the whole list, discarding the merged message. -/
theorem mount_subscription_first (rest : List MountAction)
    (h : List BazaarMessage) (m : BazaarMessage) :
    firstIndexOf MountAction.openSubscription (chatMountTrace rest) <
      firstIndexOf (MountAction.historyLoaded h) (chatMountTrace rest) ∧
    runMount (chatMountTrace [MountAction.subscriptionEvent m]) =
      { messages := [m], historyPending := true, subOpen := true } ∧
    runMount (chatMountTrace
        [MountAction.subscriptionEvent m, MountAction.historyLoaded h]) =
      { messages := h, historyPending := false, subOpen := true } := by
  refine ⟨?_, rfl, rfl⟩
  have e1 : (MountAction.callLoadConversation == MountAction.openSubscription)
      = false := rfl
  have e2 : (MountAction.callLoadMessages == MountAction.openSubscription)
      = false := rfl
  have e3 : (MountAction.callMarkMessagesAsRead == MountAction.openSubscription)
      = false := rfl
  have e4 : (MountAction.openSubscription == MountAction.openSubscription)
      = true := rfl
  have f1 : (MountAction.callLoadConversation == MountAction.historyLoaded h)
      = false := rfl
  have f2 : (MountAction.callLoadMessages == MountAction.historyLoaded h)
      = false := rfl
  have f3 : (MountAction.callMarkMessagesAsRead == MountAction.historyLoaded h)
      = false := rfl
  have f4 : (MountAction.openSubscription == MountAction.historyLoaded h)
      = false := rfl
  simp [firstIndexOf, chatMountTrace, chatMountSyncBody, List.findIdx_cons,
    e1, e2, e3, e4, f1, f2, f3, f4]

end Lunar
